import Mathlib

/-!
Shallow embedding of `app.py` (login-protected flashcards server) and proofs
about its handlers: the cards loader and cache, the `/api/cards` and
`/api/categories` endpoints, the session login flow with its usage-tracking
insert, the authentication guard, the static-asset handlers and the SPA
fallback.
-/

set_option autoImplicit false

namespace Flashcards

/-- The ASCII whitespace characters `str.strip()` removes. -/
def pyIsSpace (c : Char) : Bool :=
  c = ' ' || c = '\t' || c = '\n' || c = '\r' || c = Char.ofNat 11 || c = Char.ofNat 12

/-- Python `str.strip()`: drop leading and trailing whitespace. -/
def pyStrip (s : String) : String :=
  ⟨((s.data.dropWhile pyIsSpace).reverse.dropWhile pyIsSpace).reverse⟩

/-- Python `str.lower()` on one character (ASCII letters, which is all the
repository's emails and paths use). -/
def pyLowerChar (c : Char) : Char :=
  if 'A' ≤ c ∧ c ≤ 'Z' then Char.ofNat (c.toNat + 32) else c

/-- Python `str.lower()`. -/
def pyLower (s : String) : String :=
  ⟨s.data.map pyLowerChar⟩

/-- Python `s.startswith(p)`. -/
def pyStartswith (s p : String) : Bool :=
  p.data.isPrefixOf s.data

/-- Python `s.split(sep)` for a one-character separator (the source only
splits on `","`); `"".split(",") = [""]`. -/
def pySplitChar (sep : Char) : List Char → List (List Char)
  | [] => [[]]
  | c :: rest =>
    let groups := pySplitChar sep rest
    if c = sep then [] :: groups
    else
      match groups with
      | [] => [[c]]
      | g :: gs => (c :: g) :: gs

/-- Python `s.split(sep)` on strings. -/
def pySplit (s : String) (sep : Char) : List String :=
  (pySplitChar sep s.data).map (fun g => ⟨g⟩)

/-- JSON values as produced by `json.load` (numbers restricted to integers,
which is all the repository's data uses). -/
inductive Json where
  | null
  | bool (b : Bool)
  | num (n : Int)
  | str (s : String)
  | arr (elems : List Json)
  | obj (fields : List (String × Json))

/-- A Python dict as an insertion-ordered association list (first binding of a
key is the visible one; `dict.setdefault` appends at the end). -/
abbrev Dict := List (String × Json)

/-- `d.get(k)`: first binding of `k` in the dict. -/
def dget (d : Dict) (k : String) : Option Json :=
  d.lookup k

/-- `d.setdefault(k, v)`: keep `d` if `k` is bound, otherwise append `(k, v)`. -/
def setdefault (d : Dict) (k : String) (v : Json) : Dict :=
  match d.lookup k with
  | some _ => d
  | none => d ++ [(k, v)]

mutual

/-- Python `repr` of a JSON value (strings quoted; containers rendered
recursively, as CPython does). -/
def pyRepr : Json → String
  | Json.null => "None"
  | Json.bool true => "True"
  | Json.bool false => "False"
  | Json.num n => toString n
  | Json.str s => "\x27" ++ s ++ "\x27"
  | Json.arr xs => "[" ++ pyReprList xs ++ "]"
  | Json.obj fs => "\x7b" ++ pyReprFields fs ++ "\x7d"

/-- `repr` of the comma-separated elements of a Python list. -/
def pyReprList : List Json → String
  | [] => ""
  | [x] => pyRepr x
  | x :: xs => pyRepr x ++ ", " ++ pyReprList xs

/-- `repr` of the comma-separated `key: value` entries of a Python dict. -/
def pyReprFields : List (String × Json) → String
  | [] => ""
  | [(k, v)] => "\x27" ++ k ++ "\x27: " ++ pyRepr v
  | (k, v) :: fs => "\x27" ++ k ++ "\x27: " ++ pyRepr v ++ ", " ++ pyReprFields fs

end

/-- Python `str` of a JSON value: the string itself for strings, `repr`
otherwise. -/
def pyStr : Json → String
  | Json.str s => s
  | j => pyRepr j

/-- The built-in demo card returned by `load_cards` when `data/cards.json`
does not exist. -/
def demoCard : Dict :=
  [("id", Json.num 999),
   ("category", Json.str "Demo"),
   ("question", Json.str "Demo Q"),
   ("image", Json.str "/cards/demo_front.jpg"),
   ("answer", Json.str "Demo A"),
   ("answer_image", Json.str "/cards/demo_back.jpg"),
   ("url", Json.str "")]

/-- The `c.setdefault(...)` loop body of `load_cards`, applied to one card. -/
def normalizeCard (c : Dict) : Dict :=
  let c1 := setdefault c "id" Json.null
  let c2 := setdefault c1 "category" (Json.str "")
  let c3 := setdefault c2 "question" (Json.str "")
  let c4 := setdefault c3 "image" (Json.str "")
  let c5 := setdefault c4 "answer" (Json.str "")
  let c6 := setdefault c5 "answer_image" (Json.str "")
  setdefault c6 "url" (Json.str "")

/-- A list element that is not a dict makes `c.setdefault` raise
`AttributeError` in Python; modelled as an error result. -/
def dictFields : Json → Except String Dict
  | Json.obj fs => Except.ok fs
  | _ => Except.error "AttributeError: setdefault requires a dict"

/-- One uncached run of `load_cards`: `cardsFile` is the parsed content of
`data/cards.json` (`none` when the file does not exist). Exceptions
(`ValueError` for a non-list, `AttributeError` for non-dict elements) are
error results. -/
def load_cards_once (cardsFile : Option Json) : Except String (List Dict) :=
  match cardsFile with
  | none => Except.ok [demoCard]
  | some (Json.arr xs) => (xs.mapM dictFields).map (fun ds => ds.map normalizeCard)
  | some _ => Except.error "cards.json must be a list"

/-- `load_cards` with the module-level `_cards_cache`: returns the served list
and the cache after the call. On an exception the cache is left as it was
(the assignment to `_cards_cache` is never reached). -/
def load_cards (cache : Option (List Dict)) (cardsFile : Option Json) :
    Except String (List Dict × Option (List Dict)) :=
  match cache with
  | some l => Except.ok (l, some l)
  | none => (load_cards_once cardsFile).map (fun l => (l, some l))

/-- The request data `api_get_cards` reads: the `Sec-Fetch-Mode` header
(defaulted to `""` by `headers.get`) and the `categories` query parameter
(defaulted to `""` by `request.args.get`). -/
structure ApiRequest where
  secFetchMode : String
  categoriesParam : String

/-- Responses of `api_get_cards`: the bounce redirect, a JSON list of cards,
or a propagated exception (Flask turns it into a 500). -/
inductive ApiCardsResponse where
  | redirectResp (location : String) (code : Nat)
  | jsonCards (cards : List Dict)
  | serverError (msg : String)

/-- `GET /api/cards`: bounce navigations, otherwise load (and possibly cache)
the cards and filter them by the requested categories. Returns the response
together with the cache after the call. -/
def api_get_cards (req : ApiRequest) (cache : Option (List Dict))
    (cardsFile : Option Json) : ApiCardsResponse × Option (List Dict) :=
  if req.secFetchMode == "navigate" then
    (ApiCardsResponse.redirectResp "/" 302, cache)
  else
    match load_cards cache cardsFile with
    | Except.error e => (ApiCardsResponse.serverError e, cache)
    | Except.ok (cards, cache2) =>
      let categories_param := pyStrip req.categoriesParam
      if categories_param ≠ "" then
        let wanted := (pySplit categories_param ',').filter (fun c => c ≠ "")
        (ApiCardsResponse.jsonCards (cards.filter (fun c =>
          wanted.contains (pyStrip (pyStr ((dget c "category").getD (Json.str "")))))),
         cache2)
      else
        (ApiCardsResponse.jsonCards cards, cache2)

/-- `GET /api/categories`: the sorted set of nonempty stripped category
strings of the loaded cards. -/
def api_categories (cache : Option (List Dict)) (cardsFile : Option Json) :
    Except String (List String) × Option (List Dict) :=
  match load_cards cache cardsFile with
  | Except.error e => (Except.error e, cache)
  | Except.ok (cards, cache2) =>
    (Except.ok (((cards.map (fun c =>
        pyStrip (pyStr ((dget c "category").getD (Json.str ""))))).filter
          (fun s => s ≠ "")).dedup.mergeSort (fun a b => a ≤ b)),
     cache2)

/-- A row of the `users` table. -/
structure User where
  id : Int
  email : String
  password_hash : String
  is_active : Bool
deriving Repr, DecidableEq

/-- A row of the `login_events` table. -/
structure LoginEvent where
  user_id : Int
  ts : String
  ip : String
  user_agent : String
deriving Repr, DecidableEq

/-- The two tables of the SQLite database. -/
structure AppDb where
  users : List User
  login_events : List LoginEvent
deriving Repr, DecidableEq

/-- The keys this app stores in the Flask session. -/
structure Session where
  user_id : Option Int
  user_email : Option String
deriving Repr, DecidableEq

/-- `verify_password`, parameterized by the hash function (`hashlib.sha256`
hex digest in the source, treated as an arbitrary `String → String`). -/
def verify_password (hashp : String → String) (password : String)
    (password_hash : String) : Bool :=
  hashp password == password_hash

/-- `SELECT * FROM users WHERE email = ? AND is_active = 1` with the
normalized email; `fetchone` gives the first matching row (the `UNIQUE`
constraint on `email` makes it unique). -/
def find_user_by_email (users : List User) (email : String) : Option User :=
  users.find? (fun u => u.email == pyLower (pyStrip email) && u.is_active)

/-- The request data the `POST /login` handler reads. -/
structure LoginRequest where
  formEmail : Option String
  formPassword : Option String
  xForwardedFor : Option String
  remoteAddr : String
  userAgent : Option String

/-- Responses of the `POST /login` handler: the login page re-rendered with
an error and status 401, or a redirect. -/
inductive LoginResponse where
  | loginPage (status : Nat) (error : Option String) (email : String)
  | redirectResp (location : String)
deriving Repr, DecidableEq

/-- The `POST` branch of the `/login` handler: authenticate, insert one
`login_events` row, set the session keys and redirect; `now` is
`datetime.utcnow().isoformat()`. Returns response, session and database
after the call. -/
def login_post (hashp : String → String) (db : AppDb) (now : String)
    (req : LoginRequest) (sess : Session) :
    LoginResponse × Session × AppDb :=
  let email := pyLower (pyStrip (req.formEmail.getD ""))
  let password := req.formPassword.getD ""
  match find_user_by_email db.users email with
  | none =>
    (LoginResponse.loginPage 401 (some "Invalid email or password") email, sess, db)
  | some user =>
    if verify_password hashp password user.password_hash then
      let ev : LoginEvent :=
        { user_id := user.id
          ts := now
          ip := req.xForwardedFor.getD req.remoteAddr
          user_agent := req.userAgent.getD "" }
      (LoginResponse.redirectResp "/",
       { sess with user_id := some user.id, user_email := some user.email },
       { db with login_events := db.login_events ++ [ev] })
    else
      (LoginResponse.loginPage 401 (some "Invalid email or password") email, sess, db)

/-- Python truthiness of `session.get("user_id")`. -/
def truthyUserId : Option Int → Bool
  | none => false
  | some n => n != 0

/-- Outcomes of the `require_login` before-request hook. -/
inductive GuardResult where
  | allow
  | jsonError (status : Nat) (body : Json)
  | redirectResp (location : String)

/-- The `require_login` auth guard: allow-listed paths and logged-in sessions
pass; guests get 401 JSON on `/api/` paths and a redirect to `/login`
elsewhere. -/
def require_login (path : String) (sess : Session) : GuardResult :=
  if pyStartswith path "/static/"
      || pyStartswith path "/cards/"
      || path == "/logo.jpg"
      || path == "/login"
      || path == "/logout"
      || path == "/health" then
    GuardResult.allow
  else if truthyUserId sess.user_id then
    GuardResult.allow
  else if pyStartswith path "/api/" then
    GuardResult.jsonError 401 (Json.obj [("error", Json.str "Unauthorized")])
  else
    GuardResult.redirectResp "/login"

/-- The file-system facts the static handlers test, as predicates on paths
relative to the app root (`static/...`). -/
structure FileSystem where
  pathExists : String → Bool
  is_file : String → Bool

/-- Responses of the two static-asset handlers: `send_from_directory` or a
404 from `abort(404)`. -/
inductive StaticResponse where
  | sendFile (directory : String) (filename : String)
  | notFound404
deriving Repr, DecidableEq

/-- `GET /logo.jpg`: 404 unless `static/logo.jpg` exists, else serve it. -/
def serve_logo (fs : FileSystem) : StaticResponse :=
  if !fs.pathExists "static/logo.jpg" then
    StaticResponse.notFound404
  else
    StaticResponse.sendFile "static" "logo.jpg"

/-- `GET /cards/<filename>`: 404 unless `static/cards/<filename>` exists and
is a regular file, else serve it. -/
def serve_card_file (fs : FileSystem) (filename : String) : StaticResponse :=
  let file_path := "static/cards/" ++ filename
  if !fs.pathExists file_path || !fs.is_file file_path then
    StaticResponse.notFound404
  else
    StaticResponse.sendFile "static/cards" filename

/-- The `Cache-Control` fields `_nocache` touches. -/
structure CacheControl where
  no_store : Bool
  max_age : Option Nat
deriving Repr, DecidableEq

/-- Bodies of the UI-shell responses. -/
inductive Body where
  | sendFile (filename : String)
  | redirectBody (location : String)
  | jsonBody (j : Json)

/-- A response as the UI-shell handlers build it. -/
structure Response where
  status : Nat
  body : Body
  cache_control : CacheControl
  pragmaHeader : Option String
  expiresHeader : Option String

/-- A fresh `send_from_directory(static, name)` response (200, default
headers). -/
def sendFileResp (filename : String) : Response :=
  { status := 200
    body := Body.sendFile filename
    cache_control := { no_store := false, max_age := none }
    pragmaHeader := none
    expiresHeader := none }

/-- `_nocache`: set `no-store`, `max-age=0`, `Pragma: no-cache`,
`Expires: 0` on a response. -/
def nocache (resp : Response) : Response :=
  { resp with
    cache_control := { resp.cache_control with no_store := true, max_age := some 0 }
    pragmaHeader := some "no-cache"
    expiresHeader := some "0" }

/-- `GET /`: the SPA shell `static/index.html` with no-cache headers. -/
def index : Response :=
  nocache (sendFileResp "index.html")

/-- `GET /index.html`: redirect to `/`. -/
def index_html : Response :=
  { status := 302
    body := Body.redirectBody "/"
    cache_control := { no_store := false, max_age := none }
    pragmaHeader := none
    expiresHeader := none }

/-- `GET /<maybe_client_route>` catch-all: the shell for client routes, a
JSON 404 for unmatched `api/` paths. The argument is the path without its
leading slash, as the `path` converter passes it. -/
def spa_fallback (maybe_client_route : String) : Response :=
  if !pyStartswith maybe_client_route "api/" then
    nocache (sendFileResp "index.html")
  else
    { status := 404
      body := Body.jsonBody (Json.obj [("error", Json.str "Not found")])
      cache_control := { no_store := false, max_age := none }
      pragmaHeader := none
      expiresHeader := none }

/-! Helper lemmas about dict lookup and `setdefault`. -/

theorem lookup_append (d e : Dict) (k : String) :
    (d ++ e).lookup k = ((d.lookup k).orElse (fun _ => e.lookup k)) := by
  induction d with
  | nil => simp [List.lookup]
  | cons kv d ih =>
    obtain ⟨k0, v0⟩ := kv
    simp only [List.cons_append, List.lookup]
    cases hb : (k == k0) <;> simp [hb, ih]

theorem lookup_setdefault (d : Dict) (k : String) (v : Json) (k' : String) :
    (setdefault d k v).lookup k' =
      if k' = k then some ((d.lookup k).getD v) else d.lookup k' := by
  unfold setdefault
  cases h : d.lookup k with
  | some w =>
    by_cases hk : k' = k <;> simp [hk, h]
  | none =>
    rw [lookup_append]
    by_cases hk : k' = k
    · subst hk
      simp [h, List.lookup]
    · have hb : (k' == k) = false := beq_eq_false_iff_ne.mpr hk
      simp [hk, h, List.lookup, hb]

theorem dget_setdefault (d : Dict) (k : String) (v : Json) (k' : String) :
    dget (setdefault d k v) k' =
      if k' = k then some ((dget d k).getD v) else dget d k' :=
  lookup_setdefault d k v k'

/-- The three fields the API claim is about are present in a card. -/
def hasApiFields (c : Dict) : Bool :=
  (dget c "question").isSome && (dget c "answer").isSome && (dget c "category").isSome

theorem normalizeCard_dget_category (c : Dict) :
    dget (normalizeCard c) "category" = some ((dget c "category").getD (Json.str "")) := by
  simp [normalizeCard, dget_setdefault]

theorem normalizeCard_dget_question (c : Dict) :
    dget (normalizeCard c) "question" = some ((dget c "question").getD (Json.str "")) := by
  simp [normalizeCard, dget_setdefault]

theorem normalizeCard_dget_answer (c : Dict) :
    dget (normalizeCard c) "answer" = some ((dget c "answer").getD (Json.str "")) := by
  simp [normalizeCard, dget_setdefault]

theorem normalizeCard_hasApiFields (c : Dict) : hasApiFields (normalizeCard c) = true := by
  simp [hasApiFields, normalizeCard_dget_category, normalizeCard_dget_question,
    normalizeCard_dget_answer]

theorem load_cards_once_fields (cardsFile : Option Json) (l : List Dict)
    (h : load_cards_once cardsFile = Except.ok l) :
    ∀ c ∈ l, hasApiFields c = true := by
  intro c hc
  cases cardsFile with
  | none =>
    simp [load_cards_once] at h
    subst h
    simp at hc
    subst hc
    decide
  | some j =>
    cases j with
    | arr xs =>
      simp only [load_cards_once] at h
      cases hm : xs.mapM dictFields with
      | error e => rw [hm] at h; simp [Except.map] at h
      | ok ds =>
        rw [hm] at h
        simp [Except.map] at h
        subst h
        simp [List.mem_map] at hc
        obtain ⟨d, _, hd⟩ := hc
        rw [← hd]
        exact normalizeCard_hasApiFields d
    | null => simp [load_cards_once] at h
    | bool b => simp [load_cards_once] at h
    | num n => simp [load_cards_once] at h
    | str s => simp [load_cards_once] at h
    | obj fs => simp [load_cards_once] at h

theorem load_cards_fields (cache : Option (List Dict)) (cardsFile : Option Json)
    (hcache : ∀ l, cache = some l → ∀ c ∈ l, hasApiFields c = true)
    (l : List Dict) (cache2 : Option (List Dict))
    (h : load_cards cache cardsFile = Except.ok (l, cache2)) :
    ∀ c ∈ l, hasApiFields c = true := by
  cases cache with
  | some l0 =>
    simp [load_cards] at h
    exact h.1 ▸ hcache l0 rfl
  | none =>
    simp only [load_cards] at h
    cases h0 : load_cards_once cardsFile with
    | error e => rw [h0] at h; simp [Except.map] at h
    | ok l1 =>
      rw [h0] at h
      simp [Except.map] at h
      exact h.1 ▸ load_cards_once_fields cardsFile l1 h0

/-! Claim theorems. -/

/-- C2, counterexample: with `data/cards.json` absent, `load_cards` (run on an
empty cache, as on the first request) returns the hardcoded built-in demo
card — a constant of the program text — rather than anything obtained from a
database table; no relational store is consulted anywhere in the loader. -/
theorem load_cards_absent_is_demo_constant :
    load_cards none none = Except.ok ([demoCard], some [demoCard])
    ∧ dget demoCard "question" = some (Json.str "Demo Q")
    ∧ dget demoCard "id" = some (Json.num 999) :=
  ⟨rfl, rfl, rfl⟩

/-- C2, amended: the card list is loaded from the JSON file when it exists
(a JSON list of objects, normalized with defaults; any non-list content
raises), and when the file is absent the loader returns the single built-in
demo card; no database is involved. -/
theorem load_cards_json_or_builtin_demo :
    load_cards_once none = Except.ok [demoCard]
    ∧ (∀ ds : List Dict, load_cards_once (some (Json.arr (ds.map Json.obj))) =
        Except.ok (ds.map normalizeCard))
    ∧ (∀ j : Json, (∀ xs, j ≠ Json.arr xs) →
        ∃ e, load_cards_once (some j) = Except.error e) := by
  refine ⟨rfl, ?_, ?_⟩
  · intro ds
    have hm : ∀ (es : List Dict) (acc : List Dict),
        List.mapM.loop dictFields (es.map Json.obj) acc =
          Except.ok (acc.reverse ++ es) := by
      intro es
      induction es with
      | nil => intro acc; simp [List.mapM.loop, pure, Except.pure]
      | cons d es ih =>
        intro acc
        simp [List.mapM.loop, dictFields, Bind.bind, Except.bind, ih]
    simp [load_cards_once, List.mapM, hm ds [], Except.map]
  · intro j hj
    cases j with
    | arr xs => exact absurd rfl (hj xs)
    | null => exact ⟨_, rfl⟩
    | bool b => exact ⟨_, rfl⟩
    | num n => exact ⟨_, rfl⟩
    | str s => exact ⟨_, rfl⟩
    | obj fs => exact ⟨_, rfl⟩

/-- Witness for the amended C2 theorem at concrete inputs. -/
theorem load_cards_json_or_builtin_demo_witness :
    ∃ e, load_cards_once (some (Json.num 7)) = Except.error e :=
  load_cards_json_or_builtin_demo.2.2 (Json.num 7) (fun _ h => nomatch h)

/-- C9: the first successful `load_cards` call fixes the cache to exactly the
list it returns ([demo card with id 999] when `cards.json` is absent), and
with the cache populated every later call returns that same list — and leaves
the cache untouched — whatever `cards.json` holds by then, so `/api/cards`
and `/api/categories` serve a single consistent snapshot. -/
theorem load_cards_idempotent_cache (cardsFile : Option Json) (l : List Dict)
    (cache2 : Option (List Dict))
    (hfirst : load_cards none cardsFile = Except.ok (l, cache2)) :
    cache2 = some l
    ∧ (cardsFile = none → l = [demoCard])
    ∧ dget demoCard "id" = some (Json.num 999)
    ∧ (∀ cardsFile2, load_cards (some l) cardsFile2 = Except.ok (l, some l))
    ∧ (∀ req cardsFile2 cardsFile3,
        api_get_cards req (some l) cardsFile2 = api_get_cards req (some l) cardsFile3)
    ∧ (∀ cardsFile2 cardsFile3,
        api_categories (some l) cardsFile2 = api_categories (some l) cardsFile3) := by
  refine ⟨?_, ?_, rfl, fun _ => rfl, fun _ _ _ => rfl, fun _ _ => rfl⟩
  · simp only [load_cards] at hfirst
    cases h0 : load_cards_once cardsFile with
    | error e => rw [h0] at hfirst; simp [Except.map] at hfirst
    | ok l1 =>
      rw [h0] at hfirst
      simp [Except.map] at hfirst
      exact hfirst.1 ▸ hfirst.2.symm
  · intro hf
    subst hf
    simp [load_cards, load_cards_once, Except.map] at hfirst
    exact hfirst.1.symm

/-- Witness for C9 at a concrete first load and a later differing file. -/
theorem load_cards_idempotent_cache_witness :
    load_cards (some [demoCard]) (some (Json.num 0)) =
      Except.ok ([demoCard], some [demoCard]) :=
  (load_cards_idempotent_cache none [demoCard] (some [demoCard]) rfl).2.2.2.1
    (some (Json.num 0))

/-- C1: a `GET /api/cards` whose `Sec-Fetch-Mode` is not `navigate` (the
guard having admitted it) responds with a JSON list of card objects, each of
which carries the `question`, `answer` and `category` fields; and the loader
defaults each of the three to the empty string when the source dict lacks
it. Hypotheses: the cache holds only previously loaded cards, and the load
itself raises no exception. -/
theorem api_cards_json_fields (req : ApiRequest) (cache : Option (List Dict))
    (cardsFile : Option Json)
    (hmode : req.secFetchMode ≠ "navigate")
    (hcache : ∀ l, cache = some l → ∀ c ∈ l, hasApiFields c = true)
    (hload : ∃ r, load_cards cache cardsFile = Except.ok r) :
    (∃ cards cache2,
      api_get_cards req cache cardsFile = (ApiCardsResponse.jsonCards cards, cache2)
      ∧ ∀ c ∈ cards, hasApiFields c = true)
    ∧ (∀ c : Dict, dget c "category" = none →
        dget (normalizeCard c) "category" = some (Json.str ""))
    ∧ (∀ c : Dict, dget c "question" = none →
        dget (normalizeCard c) "question" = some (Json.str ""))
    ∧ (∀ c : Dict, dget c "answer" = none →
        dget (normalizeCard c) "answer" = some (Json.str "")) := by
  obtain ⟨⟨l, cache2⟩, hl⟩ := hload
  have hfields := load_cards_fields cache cardsFile hcache l cache2 hl
  have hb : (req.secFetchMode == "navigate") = false := beq_eq_false_iff_ne.mpr hmode
  refine ⟨?_, ?_, ?_, ?_⟩
  · by_cases hp : pyStrip req.categoriesParam = ""
    · exact ⟨l, cache2, by simp [api_get_cards, hb, hl, hp], hfields⟩
    · refine ⟨l.filter (fun c =>
        ((pySplit (pyStrip req.categoriesParam) ',').filter (fun s => s ≠ "")).contains
          (pyStrip (pyStr ((dget c "category").getD (Json.str ""))))), cache2,
        by simp [api_get_cards, hb, hl, hp], ?_⟩
      intro c hc
      exact hfields c (List.mem_of_mem_filter hc)
  · intro c h0
    simp [normalizeCard_dget_category, h0]
  · intro c h0
    simp [normalizeCard_dget_question, h0]
  · intro c h0
    simp [normalizeCard_dget_answer, h0]

/-- Witness for C1: no cache, absent file, empty headers. -/
theorem api_cards_json_fields_witness :
    ∃ cards cache2,
      api_get_cards ⟨"", ""⟩ none none = (ApiCardsResponse.jsonCards cards, cache2)
      ∧ ∀ c ∈ cards, hasApiFields c = true :=
  (api_cards_json_fields ⟨"", ""⟩ none none (by decide) (by simp)
    ⟨([demoCard], some [demoCard]), rfl⟩).1

/-- C3: when the trimmed, lower-cased form email matches an active user and
the submitted password hashes to the stored hash, `POST /login` puts the
user's id and email into the session and redirects to `/`; any later request
carrying that session passes `require_login`. (`user.id ≠ 0` holds for every
row the app creates, ids being `AUTOINCREMENT` and so positive; it is needed
because the guard tests Python truthiness of `session["user_id"]`.) -/
theorem login_success_session_redirect (hashp : String → String) (db : AppDb)
    (now : String) (req : LoginRequest) (sess : Session) (user : User)
    (hfind : find_user_by_email db.users (pyLower (pyStrip (req.formEmail.getD ""))) =
      some user)
    (hpw : hashp (req.formPassword.getD "") = user.password_hash)
    (hid : user.id ≠ 0) :
    (login_post hashp db now req sess).1 = LoginResponse.redirectResp "/"
    ∧ (login_post hashp db now req sess).2.1.user_id = some user.id
    ∧ (login_post hashp db now req sess).2.1.user_email = some user.email
    ∧ (∀ path, require_login path (login_post hashp db now req sess).2.1 =
        GuardResult.allow) := by
  have hv : verify_password hashp (req.formPassword.getD "") user.password_hash = true := by
    simp [verify_password, hpw]
  have hpost : (login_post hashp db now req sess).2.1 =
      { sess with user_id := some user.id, user_email := some user.email } := by
    simp [login_post, hfind, hv]
  refine ⟨by simp [login_post, hfind, hv], by rw [hpost], by rw [hpost], ?_⟩
  intro path
  have ht : truthyUserId (some user.id) = true := by
    simp [truthyUserId, hid]
  rw [hpost]
  simp [require_login, ht]

/-- Witness for C3: a concrete user record and matching credentials. -/
theorem login_success_session_redirect_witness :
    (login_post (fun s => s ++ "#h")
      { users := [{ id := 1, email := "owner@example.com",
                    password_hash := "changeme123#h", is_active := true }],
        login_events := [] }
      "2026-01-01T00:00:00"
      { formEmail := some " Owner@Example.COM ", formPassword := some "changeme123",
        xForwardedFor := none, remoteAddr := "127.0.0.1", userAgent := some "UA" }
      { user_id := none, user_email := none }).1 = LoginResponse.redirectResp "/" :=
  (login_success_session_redirect (fun s => s ++ "#h")
    { users := [{ id := 1, email := "owner@example.com",
                  password_hash := "changeme123#h", is_active := true }],
      login_events := [] }
    "2026-01-01T00:00:00"
    { formEmail := some " Owner@Example.COM ", formPassword := some "changeme123",
      xForwardedFor := none, remoteAddr := "127.0.0.1", userAgent := some "UA" }
    { user_id := none, user_email := none }
    { id := 1, email := "owner@example.com", password_hash := "changeme123#h",
      is_active := true }
    (by decide) rfl (by decide)).1

/-- C4: a successful `POST /login` appends exactly one row to `login_events`
— carrying the authenticated user's id, the passed-in UTC timestamp, the
`X-Forwarded-For` header when present (else the remote address), and the
`User-Agent` header — and leaves the `users` table unchanged. -/
theorem login_success_tracks_one_event (hashp : String → String) (db : AppDb)
    (now : String) (req : LoginRequest) (sess : Session) (user : User)
    (hfind : find_user_by_email db.users (pyLower (pyStrip (req.formEmail.getD ""))) =
      some user)
    (hpw : hashp (req.formPassword.getD "") = user.password_hash) :
    (login_post hashp db now req sess).2.2 =
      { users := db.users
        login_events := db.login_events ++
          [{ user_id := user.id
             ts := now
             ip := req.xForwardedFor.getD req.remoteAddr
             user_agent := req.userAgent.getD "" }] } := by
  have hv : verify_password hashp (req.formPassword.getD "") user.password_hash = true := by
    simp [verify_password, hpw]
  simp [login_post, hfind, hv]

/-- Witness for C4: the concrete login appends the expected single row. -/
theorem login_success_tracks_one_event_witness :
    (login_post (fun s => s ++ "#h")
      { users := [{ id := 1, email := "owner@example.com",
                    password_hash := "changeme123#h", is_active := true }],
        login_events := [] }
      "2026-01-01T00:00:00"
      { formEmail := some "owner@example.com", formPassword := some "changeme123",
        xForwardedFor := some "10.0.0.9", remoteAddr := "127.0.0.1",
        userAgent := none }
      { user_id := none, user_email := none }).2.2 =
      { users := [{ id := 1, email := "owner@example.com",
                    password_hash := "changeme123#h", is_active := true }],
        login_events := [{ user_id := 1, ts := "2026-01-01T00:00:00",
                           ip := "10.0.0.9", user_agent := "" }] } :=
  login_success_tracks_one_event (fun s => s ++ "#h")
    { users := [{ id := 1, email := "owner@example.com",
                  password_hash := "changeme123#h", is_active := true }],
      login_events := [] }
    "2026-01-01T00:00:00"
    { formEmail := some "owner@example.com", formPassword := some "changeme123",
      xForwardedFor := some "10.0.0.9", remoteAddr := "127.0.0.1",
      userAgent := none }
    { user_id := none, user_email := none }
    { id := 1, email := "owner@example.com", password_hash := "changeme123#h",
      is_active := true }
    (by decide) rfl

/-- C6: a failed `POST /login` (no matching active user, or a password whose
hash does not match) responds 401 with the login page, inserts nothing into
`login_events` (the whole database is untouched) and leaves the session
unchanged. -/
theorem login_failure_atomic (hashp : String → String) (db : AppDb)
    (now : String) (req : LoginRequest) (sess : Session)
    (hfail : ∀ user,
      find_user_by_email db.users (pyLower (pyStrip (req.formEmail.getD ""))) =
        some user →
      hashp (req.formPassword.getD "") ≠ user.password_hash) :
    login_post hashp db now req sess =
      (LoginResponse.loginPage 401 (some "Invalid email or password")
        (pyLower (pyStrip (req.formEmail.getD ""))), sess, db) := by
  cases hf : find_user_by_email db.users (pyLower (pyStrip (req.formEmail.getD ""))) with
  | none => simp [login_post, hf]
  | some user =>
    have hne := hfail user hf
    have hv : verify_password hashp (req.formPassword.getD "") user.password_hash = false := by
      simp [verify_password]
      exact hne
    simp [login_post, hf, hv]

/-- Witness for C6: wrong password against the concrete user. -/
theorem login_failure_atomic_witness :
    login_post (fun s => s ++ "#h")
      { users := [{ id := 1, email := "owner@example.com",
                    password_hash := "changeme123#h", is_active := true }],
        login_events := [] }
      "2026-01-01T00:00:00"
      { formEmail := some "owner@example.com", formPassword := some "wrongpass",
        xForwardedFor := none, remoteAddr := "127.0.0.1", userAgent := none }
      { user_id := none, user_email := none } =
      (LoginResponse.loginPage 401 (some "Invalid email or password")
        "owner@example.com",
       { user_id := none, user_email := none },
       { users := [{ id := 1, email := "owner@example.com",
                     password_hash := "changeme123#h", is_active := true }],
         login_events := [] }) := by
  have h := login_failure_atomic (fun s => s ++ "#h")
    { users := [{ id := 1, email := "owner@example.com",
                  password_hash := "changeme123#h", is_active := true }],
      login_events := [] }
    "2026-01-01T00:00:00"
    { formEmail := some "owner@example.com", formPassword := some "wrongpass",
      xForwardedFor := none, remoteAddr := "127.0.0.1", userAgent := none }
    { user_id := none, user_email := none }
    (by decide)
  exact h.trans (by decide)

/-- C5: a request whose path is outside the allow-list and whose session
holds no `user_id` never reaches a route handler: `require_login` returns
the 401 JSON `{"error": "Unauthorized"}` on `/api/` paths and a redirect to
`/login` elsewhere. -/
theorem guard_blocks_guests (path : String) (sess : Session)
    (hallow : (pyStartswith path "/static/" || pyStartswith path "/cards/"
        || path == "/logo.jpg" || path == "/login" || path == "/logout"
        || path == "/health") = false)
    (hsess : sess.user_id = none) :
    require_login path sess =
      (if pyStartswith path "/api/" then
        GuardResult.jsonError 401 (Json.obj [("error", Json.str "Unauthorized")])
      else GuardResult.redirectResp "/login")
    ∧ require_login path sess ≠ GuardResult.allow := by
  have ht : truthyUserId sess.user_id = false := by rw [hsess]; rfl
  constructor
  · simp [require_login, hallow, ht]
  · simp only [require_login, hallow, ht]
    by_cases hapi : pyStartswith path "/api/" = true <;> simp [hapi]

/-- Witness for C5 at a guest API path and a guest page path. -/
theorem guard_blocks_guests_witness :
    require_login "/api/cards" { user_id := none, user_email := none } =
      GuardResult.jsonError 401 (Json.obj [("error", Json.str "Unauthorized")])
    ∧ require_login "/study" { user_id := none, user_email := none } =
      GuardResult.redirectResp "/login" :=
  ⟨(guard_blocks_guests "/api/cards" { user_id := none, user_email := none }
      (by decide) rfl).1,
   (guard_blocks_guests "/study" { user_id := none, user_email := none }
      (by decide) rfl).1⟩

/-- C7: `GET /logo.jpg` 404s exactly when `static/logo.jpg` does not exist
and serves the file otherwise; `GET /cards/<filename>` 404s exactly when the
joined path does not exist or is not a regular file, and serves the named
file from the cards directory otherwise. -/
theorem static_assets_404_iff (fs : FileSystem) (filename : String) :
    (serve_logo fs = StaticResponse.notFound404 ↔
      fs.pathExists "static/logo.jpg" = false)
    ∧ (fs.pathExists "static/logo.jpg" = true →
        serve_logo fs = StaticResponse.sendFile "static" "logo.jpg")
    ∧ (serve_card_file fs filename = StaticResponse.notFound404 ↔
        (fs.pathExists ("static/cards/" ++ filename) = false ∨
         fs.is_file ("static/cards/" ++ filename) = false))
    ∧ (fs.pathExists ("static/cards/" ++ filename) = true →
        fs.is_file ("static/cards/" ++ filename) = true →
        serve_card_file fs filename = StaticResponse.sendFile "static/cards" filename) := by
  cases h1 : fs.pathExists "static/logo.jpg" <;>
    cases h2 : fs.pathExists ("static/cards/" ++ filename) <;>
      cases h3 : fs.is_file ("static/cards/" ++ filename) <;>
        simp [serve_logo, serve_card_file, h1, h2, h3]

/-- Witness for C7 on a file system where everything exists. -/
theorem static_assets_404_iff_witness :
    serve_card_file { pathExists := fun _ => true, is_file := fun _ => true }
      "demo_front.jpg" = StaticResponse.sendFile "static/cards" "demo_front.jpg" :=
  (static_assets_404_iff { pathExists := fun _ => true, is_file := fun _ => true }
    "demo_front.jpg").2.2.2 rfl rfl

/-- C8: `GET /` serves `static/index.html` with no-store cache headers;
`GET /index.html` redirects to `/`; the authenticated catch-all serves the
same shell for any path not starting with `api/` and a 404 JSON
`{"error": "Not found"}` for unmatched `api/` paths. -/
theorem spa_single_page_shell :
    index.status = 200
    ∧ index.body = Body.sendFile "index.html"
    ∧ index.cache_control.no_store = true
    ∧ index.cache_control.max_age = some 0
    ∧ index.pragmaHeader = some "no-cache"
    ∧ index.expiresHeader = some "0"
    ∧ index_html.status = 302
    ∧ index_html.body = Body.redirectBody "/"
    ∧ (∀ p, pyStartswith p "api/" = false → spa_fallback p = index)
    ∧ (∀ p, pyStartswith p "api/" = true →
        (spa_fallback p).status = 404
        ∧ (spa_fallback p).body =
            Body.jsonBody (Json.obj [("error", Json.str "Not found")])) := by
  refine ⟨rfl, rfl, rfl, rfl, rfl, rfl, rfl, rfl, ?_, ?_⟩
  · intro p hp
    simp [spa_fallback, index, hp]
  · intro p hp
    constructor <;> simp [spa_fallback, hp]

/-- Witness for C8 at a client route and an unmatched API route. -/
theorem spa_single_page_shell_witness :
    spa_fallback "study" = index ∧ (spa_fallback "api/zzz").status = 404 :=
  ⟨spa_single_page_shell.2.2.2.2.2.2.2.2.1 "study" (by decide),
   (spa_single_page_shell.2.2.2.2.2.2.2.2.2 "api/zzz" (by decide)).1⟩

end Flashcards
